import Mathlib

/-!
Verification of the FlowKit query-server specification against the source.

The development shallowly embeds the parts of the repository that the
claims touch: query identity (the md5-based fingerprint), the DummyQuery
behaviour from flowmachine/core/dummy_query.py, the unstored-dependencies
graph pinned by flowmachine/tests/test_query.py, the FlowAPI gateway
handlers from flowapi/flowapi/query_endpoints.py, the ParetoInteractions
constructor validation, and JoinToLocation.column_names.
-/

namespace FlowKit

/-! ## MD5 hexdigest model (query fingerprints)

`flowmachine.core.Query.md5` is not under src; only its callers are.
The digest itself is therefore modelled from the spec. -/

/-- Modelled from the spec: `Query.md5` hashes a canonical serialisation of
the query with a collision-resistant 128-bit digest (MD5).  The compression
function is abstracted as a deterministic 128-bit string fold; the claims
depend only on determinism and on the hexdigest output format. -/
def md5Nat (s : String) : Nat :=
  s.foldl (fun a c => (a * 65599 + c.toNat) % 2 ^ 128) 5381

/-- One lowercase hexadecimal digit, as produced by Python's `hexdigest`. -/
def hexDigit (n : Nat) : Char :=
  if n < 10 then Char.ofNat (48 + n) else Char.ofNat (87 + n)

/-- Fixed-width big-endian hexadecimal rendering of a natural number. -/
def hexChars : Nat → Nat → List Char
  | 0, _ => []
  | w + 1, n => hexChars w (n / 16) ++ [hexDigit (n % 16)]

/-- Modelled from the spec: Python `hashlib.md5(...).hexdigest()` renders the
128-bit digest as exactly 32 lowercase hexadecimal characters. -/
def hexdigest (s : String) : String :=
  ⟨hexChars 32 (md5Nat s)⟩

/-- Modelled from the spec: `flowmachine.core.Query.md5` (not under src) is
the MD5 hexdigest of the query's canonical serialisation. -/
def Query_md5 (canonical : String) : String := hexdigest canonical

/-- From src dummy_query.py (`DummyQuery.md5`): the usual md5 hash is
prefixed with `dummy_query_` "to make it obvious that this is not a regular
query". -/
def DummyQuery_md5 (canonical : String) : String :=
  "dummy_query_" ++ Query_md5 canonical

/-- Canonical serialisation of the dummy query spec used as the documented
example in base_exposed_query.py:
`FlowmachineQuerySchema().load(\x7b"query_kind": "dummy_query", "dummy_param": "foobar"\x7d)`. -/
def dummySpecCanonical : String :=
  "\x7b\"dummy_param\": \"foobar\", \"query_kind\": \"dummy_query\"\x7d"

/-- The canonical JSON of the dummy query's parameters as returned by
`get_query_params` (keys sorted, per `json.dumps(..., sort_keys=True)`). -/
def dummyParamsJson : String := dummySpecCanonical

/-- `BaseExposedQuery.query_id` (src base_exposed_query.py) returns
`self._flowmachine_query_obj.md5`; for the dummy query spec the underlying
object is a `DummyQuery`. -/
def dummy_query_id : String := DummyQuery_md5 dummySpecCanonical

/-- The sixteen lowercase hexadecimal characters. -/
def lowerHexAlphabet : List Char := "0123456789abcdef".toList

/-- A 32-character lowercase hexadecimal digest, as the spec describes the
fingerprint. -/
def isLowerHex32 (s : String) : Bool :=
  s.length == 32 && s.data.all (· ∈ lowerHexAlphabet)

/-- Modelled from the spec: `fingerprint(spec)` is the hash of the spec's
canonical serialisation. -/
def fingerprint (canonicalSpec : String) : String := Query_md5 canonicalSpec

theorem hexChars_length (w : Nat) : ∀ n, (hexChars w n).length = w := by
  induction w with
  | zero => intro n; rfl
  | succ w ih =>
      intro n
      simp [hexChars, ih]

theorem hexDigit_mem (n : Nat) (h : n < 16) : hexDigit n ∈ lowerHexAlphabet := by
  interval_cases n <;> decide

theorem hexChars_mem (w : Nat) :
    ∀ n c, c ∈ hexChars w n → c ∈ lowerHexAlphabet := by
  induction w with
  | zero => intro n c hc; simp [hexChars] at hc
  | succ w ih =>
      intro n c hc
      simp only [hexChars, List.mem_append, List.mem_singleton] at hc
      rcases hc with hc | hc
      · exact ih _ _ hc
      · subst hc
        exact hexDigit_mem _ (Nat.mod_lt _ (by norm_num))

theorem hexdigest_isLowerHex32 (s : String) : isLowerHex32 (hexdigest s) = true := by
  have hlen : (hexdigest s).length = 32 := by
    simp [hexdigest, String.length, hexChars_length]
  have hmem : ∀ c ∈ (hexdigest s).data, c ∈ lowerHexAlphabet := by
    intro c hc
    exact hexChars_mem 32 (md5Nat s) c hc
  simp only [isLowerHex32, Bool.and_eq_true, beq_iff_eq, List.all_eq_true]
  exact ⟨hlen, fun c hc => by simpa using hmem c hc⟩

theorem hexdigest_length (s : String) : (hexdigest s).length = 32 := by
  simp [hexdigest, String.length, hexChars_length]

theorem DummyQuery_md5_length (s : String) : (DummyQuery_md5 s).length = 44 := by
  simp only [DummyQuery_md5, Query_md5, String.length_append, hexdigest_length]
  decide

/-! ## Query state machine and DummyQuery storage (dummy_query.py)

`flowmachine.core.query_state.QueryStateMachine` is not under src; its
transitions are modelled from the spec (section 4.3).  `DummyQuery.store`
and `DummyQuery.is_stored` are transcribed from src dummy_query.py. -/

/-- The per-query states of the spec's state machine (section 3). -/
inductive QueryState where
  | known
  | queued
  | executing
  | completed
  | errored
  | cancelled
deriving DecidableEq, Repr

/-- The server-side state the claims observe: the redis-backed query states
and the set of materialised relations `(schema, tablename)` in the
warehouse. -/
structure ServerState where
  redis : List (String × QueryState)
  tables : List (String × String)
deriving DecidableEq, Repr

/-- Current state of a query id; an id redis has never seen is `known`. -/
def getQState (redis : List (String × QueryState)) (qid : String) : QueryState :=
  (redis.lookup qid).getD QueryState.known

/-- Record a new state for a query id. -/
def setQState (redis : List (String × QueryState)) (qid : String)
    (s : QueryState) : List (String × QueryState) :=
  (qid, s) :: redis.filter (fun p => p.1 ≠ qid)

/-- Modelled from the spec: `enqueue` — `known → queued`, no-op otherwise. -/
def smEnqueue (redis : List (String × QueryState)) (qid : String) :
    List (String × QueryState) :=
  match getQState redis qid with
  | QueryState.known => setQState redis qid QueryState.queued
  | _ => redis

/-- Modelled from the spec: `execute` — `queued → executing`, no-op otherwise. -/
def smExecute (redis : List (String × QueryState)) (qid : String) :
    List (String × QueryState) :=
  match getQState redis qid with
  | QueryState.queued => setQState redis qid QueryState.executing
  | _ => redis

/-- Modelled from the spec: `finish` — `executing → completed`, no-op otherwise. -/
def smFinish (redis : List (String × QueryState)) (qid : String) :
    List (String × QueryState) :=
  match getQState redis qid with
  | QueryState.executing => setQState redis qid QueryState.completed
  | _ => redis

/-- `QueryStateMachine.is_completed`. -/
def smIsCompleted (redis : List (String × QueryState)) (qid : String) : Bool :=
  getQState redis qid == QueryState.completed

/-- From src dummy_query.py: `DummyQuery.store` marks the query state as
finished via `enqueue`, `execute`, `finish` on the state machine "but
without actually writing to the database" — the warehouse tables are
untouched. -/
def DummyQuery_store (st : ServerState) (qid : String) : ServerState :=
  { st with redis := smFinish (smExecute (smEnqueue st.redis qid) qid) qid }

/-- From src dummy_query.py: `DummyQuery.is_stored` determines the stored
status "from redis, instead of checking the database". -/
def DummyQuery_is_stored (st : ServerState) (qid : String) : Bool :=
  smIsCompleted st.redis qid

/-- Whether the query id's `(schema, table_name)` points at a materialised
relation in the warehouse.  Cached queries live in schema `cache` under the
name `x<query_id>` (the `x`-prefixed node names also appear in
tests/test_query.py). -/
def is_materialised (st : ServerState) (qid : String) : Bool :=
  ("cache", "x" ++ qid) ∈ st.tables

theorem DummyQuery_store_fresh (st : ServerState) (qid : String)
    (h : st.redis.lookup qid = none) :
    DummyQuery_is_stored (DummyQuery_store st qid) qid = true ∧
      (DummyQuery_store st qid).tables = st.tables := by
  refine ⟨?_, rfl⟩
  simp [DummyQuery_is_stored, DummyQuery_store, smIsCompleted, smEnqueue,
    smExecute, smFinish, getQState, setQState, h, List.lookup]

/-! ## Wire replies and the FlowAPI gateway handlers (query_endpoints.py)

Replies are JSON objects; the handlers read fields by key, and a missing
key is Python's `KeyError`.  The handlers below are transcribed from
src flowapi/flowapi/query_endpoints.py. -/

/-- A JSON value, restricted to the shapes the handlers touch. -/
inductive JVal where
  | jstr : String → JVal
  | jobj : List (String × JVal) → JVal

/-- Field access on a JSON object (`reply[k]` without the raise). -/
def JVal.getKey : JVal → String → Option JVal
  | JVal.jobj fields, k => fields.lookup k
  | _, _ => none

/-- Field access expecting a string value. -/
def JVal.getStr (v : JVal) (k : String) : Option String :=
  match v.getKey k with
  | some (JVal.jstr s) => some s
  | _ => none

/-- A failed dictionary lookup raises `KeyError` in Python. -/
def orKeyError {α : Type} : Option α → Except String α
  | some a => Except.ok a
  | none => Except.error "KeyError"

/-- Body of an HTTP response: a JSON document, or a streamed result of the
given SQL. -/
inductive RespBody where
  | json : JVal → RespBody
  | streamedSql : String → RespBody

/-- An HTTP response as the gateway handlers build it: status code, extra
headers, body.  A handler that raises instead is an `Except.error`. -/
structure HttpResponse where
  statusCode : Nat
  headers : List (String × String)
  body : RespBody

/-- `url_for("query.poll_query", query_id=qid)`. -/
def url_for_poll (qid : String) : String := "/poll/" ++ qid

/-- `url_for("query.get_query_result", query_id=qid)`. -/
def url_for_get (qid : String) : String := "/get/" ++ qid

/-- From src query_endpoints.py: the `POST /run` handler `run_query`,
as a function of the server's reply. -/
def run_query_handler (reply : JVal) : Except String HttpResponse := do
  let status ← orKeyError (reply.getStr "status")
  if status = "error" then
    let msg ← orKeyError (reply.getStr "msg")
    pure ⟨403, [], RespBody.json (JVal.jobj
      [("status", JVal.jstr "Error"), ("msg", JVal.jstr msg)])⟩
  else if status = "accepted" then
    let data ← orKeyError (reply.getKey "data")
    match data.getStr "query_id" with
    | none => Except.error "AssertionError"
    | some qid =>
        pure ⟨202, [("Location", url_for_poll qid)], RespBody.json (JVal.jobj [])⟩
  else
    pure ⟨403, [], RespBody.json (JVal.jobj [])⟩

/-- From src query_endpoints.py: the `GET /poll/<query_id>` handler
`poll_query`, as a function of the server's reply.  On a reply with status
`"error"` the source reads `reply[""]` — a key no reply envelope carries —
and returns a `jsonify` body with no explicit status code (HTTP 200). -/
def poll_query_handler (reply : JVal) (query_id : String) :
    Except String HttpResponse := do
  let status ← orKeyError (reply.getStr "status")
  if status = "error" then
    let m ← orKeyError (reply.getStr "")
    pure ⟨200, [], RespBody.json (JVal.jobj
      [("status", JVal.jstr "error"), ("msg", JVal.jstr m)])⟩
  else if status = "done" then
    let data ← orKeyError (reply.getKey "data")
    let queryState ← orKeyError (data.getStr "query_state")
    if queryState = "completed" then
      pure ⟨303, [("Location", url_for_get query_id)], RespBody.json (JVal.jobj [])⟩
    else if queryState = "executing" ∨ queryState = "queued" then
      let m ← orKeyError (reply.getStr "msg")
      pure ⟨202, [], RespBody.json (JVal.jobj
        [("status", JVal.jstr queryState), ("msg", JVal.jstr m)])⟩
    else if queryState = "errored" ∨ queryState = "cancelled" then
      let m ← orKeyError (reply.getStr "msg")
      pure ⟨500, [], RespBody.json (JVal.jobj
        [("status", JVal.jstr queryState), ("msg", JVal.jstr m)])⟩
    else
      let m ← orKeyError (reply.getStr "msg")
      pure ⟨404, [], RespBody.json (JVal.jobj
        [("status", JVal.jstr queryState), ("msg", JVal.jstr m)])⟩
  else
    Except.error "AssertionError"

/-- From src query_endpoints.py: the `GET /get/<query_id>` handler
`get_query_result`, as a function of the server's reply.  In the error
branches for `errored`, `awol` and `known` the source reads
`reply["error"]`, a key the reply envelope does not carry. -/
def get_query_result_handler (reply : JVal) (query_id : String) :
    Except String HttpResponse := do
  let status ← orKeyError (reply.getStr "status")
  if status = "error" then
    let data ← orKeyError (reply.getKey "data")
    let queryState ← orKeyError (data.getStr "query_state")
    if queryState = "executing" ∨ queryState = "queued" then
      pure ⟨202, [], RespBody.json (JVal.jobj [])⟩
    else if queryState = "errored" then
      let m ← orKeyError (reply.getStr "error")
      pure ⟨403, [], RespBody.json (JVal.jobj
        [("status", JVal.jstr "Error"), ("msg", JVal.jstr m)])⟩
    else if queryState = "awol" ∨ queryState = "known" then
      let m ← orKeyError (reply.getStr "error")
      pure ⟨404, [], RespBody.json (JVal.jobj
        [("status", JVal.jstr "Error"), ("msg", JVal.jstr m)])⟩
    else
      pure ⟨500, [], RespBody.json (JVal.jobj
        [("status", JVal.jstr "Error"),
         ("msg", JVal.jstr ("Unexpected query state: " ++ queryState))])⟩
  else
    let data ← orKeyError (reply.getKey "data")
    let sql ← orKeyError (data.getStr "sql")
    pure ⟨200,
      [("Transfer-Encoding", "chunked"),
       ("Content-Disposition", "attachment;filename=" ++ query_id ++ ".json"),
       ("Content-type", "application/json")],
      RespBody.streamedSql sql⟩

/-! ## Server replies

The flowmachine server's action handlers are not under src; the reply
envelope and the awol reply are modelled from the spec, and validated
against the in-src integration test
test_get_query_kind_for_nonexistent_query_id. -/

/-- Modelled from the spec: the reply envelope `\x7bstatus, msg, data\x7d`
(the in-src integration tests compare replies against dictionaries with
exactly these three keys). -/
def mkReply (status msg : String) (data : JVal) : JVal :=
  JVal.jobj [("status", JVal.jstr status), ("msg", JVal.jstr msg), ("data", data)]

/-- The `data` payload carrying a query id and its state. -/
def stateData (qid qstate : String) : JVal :=
  JVal.jobj [("query_id", JVal.jstr qid), ("query_state", JVal.jstr qstate)]

/-- Modelled from the spec: a query-addressed action invoked with an id the
server has no record of replies `status:"error"` with
`data.query_state:"awol"` and msg `Unknown query id: '<id>'`. -/
def awol_reply (qid : String) : JVal :=
  mkReply "error" ("Unknown query id: '" ++ qid ++ "'") (stateData qid "awol")

/-- Modelled from the spec: the `poll_query` reply for a known id is a
`status:"done"` envelope carrying the current `query_state`. -/
def poll_done_reply (qid qstate : String) : JVal :=
  mkReply "done" "" (stateData qid qstate)

/-- Modelled from the spec: dispatch of a query-addressed action — a known
id is answered by the action's own handler, an unknown one by the awol
error reply. -/
def query_addressed_reply (known : List String) (qid : String)
    (onKnown : String → JVal) : JVal :=
  if qid ∈ known then onKnown qid else awol_reply qid

/-! ## Dependency graphs and the unstored-dependencies walk

`flowmachine.utils.unstored_dependencies_graph` is not under src; its
behaviour is pinned by the in-src tests `test_unstored_dependencies_graph`
and `test_unstored_dependencies_graph_for_stored_query` in
flowmachine/tests/test_query.py, from which the walk below is modelled:
an unstored root's graph collects each unstored direct dependency together
with that dependency's own walk, and does not descend below a stored
dependency; a stored root's graph is empty; the root itself is never a
node. -/

mutual
/-- A query object with its direct dependencies (a finite dependency
tree; sharing in the real DAG only duplicates subtrees here).  The name
stands for the query id. -/
inductive DQ where
  | mk : String → DQList → DQ
/-- A list of dependency queries. -/
inductive DQList where
  | nil : DQList
  | cons : DQ → DQList → DQList
end

/-- The query id of a query object. -/
def DQ.name : DQ → String
  | DQ.mk n _ => n

mutual
/-- Ids of all transitive dependencies of a query (the full dependency
closure, root excluded). -/
def allDepNames : DQ → List String
  | DQ.mk _ ds => allDepNamesList ds
/-- Ids of all transitive dependencies of each query in the list, the
queries themselves included. -/
def allDepNamesList : DQList → List String
  | DQList.nil => []
  | DQList.cons d ds => d.name :: allDepNames d ++ allDepNamesList ds
end

mutual
/-- The prune-at-stored walk below a query: each unstored direct
dependency is collected together with its own walk; stored dependencies
are skipped without descending. -/
def unstoredWalk (stored : List String) : DQ → List String
  | DQ.mk _ ds => unstoredWalkList stored ds
/-- The prune-at-stored walk over a dependency list. -/
def unstoredWalkList (stored : List String) : DQList → List String
  | DQList.nil => []
  | DQList.cons d ds =>
      (if d.name ∈ stored then [] else d.name :: unstoredWalk stored d) ++
        unstoredWalkList stored ds
end

/-- `_unstored_dependencies_graph` (modelled from the in-src tests in
tests/test_query.py): empty for a stored query, otherwise the
prune-at-stored walk below the root. -/
def unstored_dependencies_graph (stored : List String) (q : DQ) : List String :=
  if q.name ∈ stored then [] else unstoredWalk stored q

/-- The subgraph of the full transitive dependency DAG induced by removing
the nodes whose cache record is completed — the semantics the spec ascribes
to `unstored_closure`. -/
def inducedUnstoredSubgraph (stored : List String) (q : DQ) : List String :=
  (allDepNames q).filter (fun x => x ∉ stored)

/-- The dependency structure of test_unstored_dependencies_graph:
dummy5 depends on dummy3 (stored) and dummy4; dummy3 on dummy1 and dummy2;
dummy4 on dummy2. -/
def testDummy1 : DQ := DQ.mk "dummy1" DQList.nil

def testDummy2 : DQ := DQ.mk "dummy2" DQList.nil

def testDummy3 : DQ :=
  DQ.mk "dummy3" (DQList.cons testDummy1 (DQList.cons testDummy2 DQList.nil))

def testDummy4 : DQ := DQ.mk "dummy4" (DQList.cons testDummy2 DQList.nil)

def testDummy5 : DQ :=
  DQ.mk "dummy5" (DQList.cons testDummy3 (DQList.cons testDummy4 DQList.nil))

mutual
theorem unstoredWalk_sound (stored : List String) :
    ∀ q : DQ, ∀ x ∈ unstoredWalk stored q,
      x ∉ stored ∧ x ∈ allDepNames q
  | DQ.mk n ds => by
      intro x hx
      simpa [unstoredWalk, allDepNames] using
        unstoredWalkList_sound stored ds x (by simpa [unstoredWalk] using hx)
theorem unstoredWalkList_sound (stored : List String) :
    ∀ ds : DQList, ∀ x ∈ unstoredWalkList stored ds,
      x ∉ stored ∧ x ∈ allDepNamesList ds
  | DQList.nil => by intro x hx; simp [unstoredWalkList] at hx
  | DQList.cons d ds => by
      intro x hx
      simp only [unstoredWalkList, List.mem_append] at hx
      rcases hx with hx | hx
      · by_cases hd : d.name ∈ stored
        · simp [hd] at hx
        · simp only [hd, if_false, List.mem_cons] at hx
          rcases hx with rfl | hx
          · exact ⟨hd, by simp [allDepNamesList]⟩
          · obtain ⟨h1, h2⟩ := unstoredWalk_sound stored d x hx
            exact ⟨h1, by simp [allDepNamesList, h2]⟩
      · obtain ⟨h1, h2⟩ := unstoredWalkList_sound stored ds x hx
        exact ⟨h1, by simp [allDepNamesList, h2]⟩
end

/-! ## ParetoInteractions constructor validation (pareto_interactions.py) -/

/-- From src pareto_interactions.py: the constructor keeps `proportion`
when `1 > proportion > 0` holds and otherwise raises
`ValueError("\x7b\x7d is not a valid proportion.".format(proportion))`.
Float parameters are modelled as rationals; the comparisons are exact. -/
def ParetoInteractions_init (proportion : ℚ) : Except String ℚ :=
  if 1 > proportion ∧ proportion > 0 then Except.ok proportion
  else Except.error (toString proportion ++ " is not a valid proportion.")

/-! ## JoinToLocation column names (join_to_location.py) -/

/-- From src join_to_location.py: `JoinToLocation.column_names` walks the
spatial unit's location columns and, for each one present in the left
query's column names, removes it with Python's `list.remove` — which
deletes only the first occurrence — then appends the location columns. -/
def JoinToLocation_column_names (leftColumns locationColumns : List String) :
    List String :=
  (locationColumns.foldl
      (fun acc c => if c ∈ acc then acc.erase c else acc) leftColumns) ++
    locationColumns

theorem removeFold_eq_filter (locationColumns : List String) :
    ∀ leftColumns : List String, leftColumns.Nodup →
      locationColumns.foldl
          (fun acc c => if c ∈ acc then acc.erase c else acc) leftColumns =
        leftColumns.filter (fun x => x ∉ locationColumns) := by
  induction locationColumns with
  | nil => intro L _; simp
  | cons c cs ih =>
      intro L hL
      have hstep : (if c ∈ L then L.erase c else L) = L.filter (fun x => x ≠ c) := by
        by_cases hc : c ∈ L
        · simp only [hc, if_true]
          simpa using hL.erase_eq_filter c
        · simp only [hc, if_false]
          refine (List.filter_eq_self.mpr ?_).symm
          intro a ha
          simp only [ne_eq, decide_eq_true_eq]
          rintro rfl
          exact hc ha
      rw [List.foldl_cons, hstep, ih _ (hL.filter _), List.filter_filter]
      refine List.filter_congr ?_
      intro a _
      simp only [List.mem_cons, decide_not]
      by_cases h1 : a = c <;> by_cases h2 : a ∈ cs <;> simp [h1, h2]

/-! ## Query-params lookup (round-trip for C2)

`flowmachine.core.query_info_lookup.QueryInfoLookup` is not under src;
it is modelled from the spec: `run_query` registers the canonical spec
under its query_id and `get_query_params` returns it. -/

/-- Modelled from the spec: registering a query's canonical parameters
under its query id. -/
def register_query (store : List (String × String)) (qid params : String) :
    List (String × String) :=
  (qid, params) :: store

/-- Modelled from the spec: the `get_query_params` action returns the
canonical spec registered under the query id. -/
def get_query_params (store : List (String × String)) (qid : String) :
    Option String :=
  store.lookup qid

/-! ## Claim theorems -/

/-- The fingerprint of the dummy query's canonical parameters (32
characters) cannot equal its query_id (44 characters). -/
theorem fingerprint_ne_dummy_query_id :
    fingerprint dummyParamsJson ≠ dummy_query_id := by
  intro h
  have h1 : (fingerprint dummyParamsJson).length = 32 := hexdigest_length _
  have h2 : dummy_query_id.length = 44 := DummyQuery_md5_length _
  rw [h] at h1
  omega

/-- C1 (as stated, counterexample): for the documented dummy query spec
`\x7b"query_kind": "dummy_query", "dummy_param": "foobar"\x7d` the query_id
returned by `BaseExposedQuery.query_id` is `DummyQuery.md5`, which is not a
32-character lowercase hexadecimal digest (it is 44 characters long,
starting with `dummy_query_`). -/
theorem dummy_query_id_not_hex32 : isLowerHex32 dummy_query_id = false := by
  have h : dummy_query_id.length = 44 := DummyQuery_md5_length _
  simp [isLowerHex32, h]

/-- C1 (amended): the underlying `Query.md5` digest is always a
32-character lowercase hexadecimal string, and `DummyQuery.md5` is exactly
that digest with the `dummy_query_` marker in front (so 44 characters). -/
theorem query_id_digest_format (s t : String) :
    isLowerHex32 (Query_md5 s) = true ∧
    DummyQuery_md5 t = "dummy_query_" ++ Query_md5 t ∧
    (DummyQuery_md5 t).length = 44 :=
  ⟨hexdigest_isLowerHex32 s, rfl, DummyQuery_md5_length t⟩

/-- C2 (as stated, counterexample): for the dummy query spec,
`get_query_params` returns the registered canonical parameters, but the
fingerprint of that spec (32 hexadecimal characters) cannot equal the
query_id (44 characters, `dummy_query_`-prefixed), so the round-trip
`fingerprint(get_query_params(query_id)) = query_id` fails. -/
theorem dummy_roundtrip_fails :
    get_query_params (register_query [] dummy_query_id dummyParamsJson)
        dummy_query_id = some dummyParamsJson ∧
      fingerprint dummyParamsJson ≠ dummy_query_id := by
  constructor
  · simp [get_query_params, register_query, List.lookup]
  · exact fingerprint_ne_dummy_query_id

/-- C2 (amended): `get_query_params` does return the spec registered under
a query_id, but the fingerprint of the returned spec need not reproduce the
query_id: the query_id is the internal `Query.md5` of the query object, and
for the dummy query spec it is `dummy_query_`-prefixed, so no 32-character
fingerprint equals it. -/
theorem get_query_params_roundtrip (store : List (String × String))
    (qid params : String) :
    get_query_params (register_query store qid params) qid = some params ∧
      fingerprint dummyParamsJson ≠ dummy_query_id := by
  constructor
  · simp [get_query_params, register_query, List.lookup]
  · exact fingerprint_ne_dummy_query_id

/-- C3 (as stated, counterexample): after `DummyQuery.store` on a fresh
server state the query state is completed (`is_stored` is true) yet the
warehouse holds no materialised relation for the id, so
`completed ⇔ materialised relation` fails. -/
theorem dummy_completed_without_relation :
    ¬ (DummyQuery_is_stored (DummyQuery_store ⟨[], []⟩ "dummy_query_testid")
          "dummy_query_testid" = true ↔
        is_materialised (DummyQuery_store ⟨[], []⟩ "dummy_query_testid")
          "dummy_query_testid" = true) := by
  decide

/-- C3 (amended): `DummyQuery.store` drives a previously-unseen query id to
the completed state while leaving the warehouse untouched — its `is_stored`
reads the state machine rather than the database, so for dummy queries the
completed state does not certify a materialised relation. -/
theorem dummy_store_completes_without_writing (st : ServerState) (qid : String)
    (h : st.redis.lookup qid = none) :
    DummyQuery_is_stored (DummyQuery_store st qid) qid = true ∧
      (DummyQuery_store st qid).tables = st.tables ∧
      is_materialised (DummyQuery_store st qid) qid = is_materialised st qid :=
  ⟨(DummyQuery_store_fresh st qid h).1, (DummyQuery_store_fresh st qid h).2,
    by simp [is_materialised, DummyQuery_store]⟩

theorem dummy_store_completes_without_writing_witness :
    DummyQuery_is_stored (DummyQuery_store ⟨[], []⟩ "dummy_query_testid")
        "dummy_query_testid" = true ∧
      (DummyQuery_store ⟨[], []⟩ "dummy_query_testid").tables =
        (⟨[], []⟩ : ServerState).tables ∧
      is_materialised (DummyQuery_store ⟨[], []⟩ "dummy_query_testid")
          "dummy_query_testid" =
        is_materialised ⟨[], []⟩ "dummy_query_testid" :=
  dummy_store_completes_without_writing ⟨[], []⟩ "dummy_query_testid" rfl

/-- C4 (as stated, counterexample): in the dependency structure of
tests/test_query.py (dummy3 stored, all others unstored), dummy1 is a
non-completed node of dummy5's dependency closure, yet the
unstored-dependencies graph omits it — the graph is not the induced
subgraph on non-completed nodes. -/
theorem unstored_graph_not_induced_subgraph :
    "dummy1" ∈ inducedUnstoredSubgraph ["dummy3"] testDummy5 ∧
      "dummy1" ∉ unstored_dependencies_graph ["dummy3"] testDummy5 := by
  decide

/-- C4 (amended): the unstored-dependencies graph contains only unstored
transitive dependencies of the root, but prunes at stored nodes: it is the
set of dependencies reachable from the root through unstored nodes only
(and is empty for a stored root), reproducing the expectations of
tests/test_query.py on its example. -/
theorem unstored_graph_characterisation (stored : List String) (q : DQ) :
    (∀ x ∈ unstored_dependencies_graph stored q,
        x ∉ stored ∧ x ∈ allDepNames q) ∧
      unstored_dependencies_graph ["dummy3"] testDummy5 = ["dummy4", "dummy2"] ∧
      unstored_dependencies_graph ["dummy3"] testDummy3 = [] := by
  refine ⟨?_, by decide, by decide⟩
  intro x hx
  by_cases h : q.name ∈ stored
  · simp [unstored_dependencies_graph, h] at hx
  · exact unstoredWalk_sound stored q x
      (by simpa [unstored_dependencies_graph, h] using hx)

theorem unstored_graph_characterisation_witness :
    "dummy4" ∉ ["dummy3"] ∧ "dummy4" ∈ allDepNames testDummy5 :=
  (unstored_graph_characterisation ["dummy3"] testDummy5).1 "dummy4" (by decide)

/-- C5 (as stated, counterexample): on the result-retrieval endpoint a
reply in state errored does not produce an HTTP 500 response — the handler
branch is written to return 403 and in fact raises `KeyError` reading the
reply's nonexistent `error` field. -/
theorem get_result_errored_not_500 :
    get_query_result_handler
        (mkReply "error" "" (stateData "a_query_id" "errored")) "a_query_id" =
      Except.error "KeyError" := rfl

/-- C5 (amended): a reply in state errored yields HTTP 500 on the poll
endpoint; the result-retrieval endpoint's errored branch does not yield
500 — it reads the reply's nonexistent `error` key (raising `KeyError`)
and is written to return 403. -/
theorem errored_state_http_mapping (qid m : String) :
    poll_query_handler (poll_done_reply qid "errored") qid =
      Except.ok ⟨500, [], RespBody.json (JVal.jobj
        [("status", JVal.jstr "errored"), ("msg", JVal.jstr "")])⟩ ∧
    get_query_result_handler (mkReply "error" m (stateData qid "errored")) qid =
      Except.error "KeyError" :=
  ⟨rfl, rfl⟩

/-- C6: on `GET /poll/<query_id>` the gateway maps a done-reply in state
completed to 303 with a Location header for the result endpoint, queued and
executing to 202, and errored to 500; but for an unknown id — whose reply
arrives with status "error" and state awol — the handler does not return
404: it reads `reply[""]`, a key no reply carries, and raises `KeyError`
(and its error branch sets no status code at all). -/
theorem poll_endpoint_state_mapping (qid : String) :
    poll_query_handler (poll_done_reply qid "completed") qid =
      Except.ok ⟨303, [("Location", url_for_get qid)],
        RespBody.json (JVal.jobj [])⟩ ∧
    poll_query_handler (poll_done_reply qid "queued") qid =
      Except.ok ⟨202, [], RespBody.json (JVal.jobj
        [("status", JVal.jstr "queued"), ("msg", JVal.jstr "")])⟩ ∧
    poll_query_handler (poll_done_reply qid "executing") qid =
      Except.ok ⟨202, [], RespBody.json (JVal.jobj
        [("status", JVal.jstr "executing"), ("msg", JVal.jstr "")])⟩ ∧
    poll_query_handler (poll_done_reply qid "errored") qid =
      Except.ok ⟨500, [], RespBody.json (JVal.jobj
        [("status", JVal.jstr "errored"), ("msg", JVal.jstr "")])⟩ ∧
    poll_query_handler (awol_reply "FOOBAR") "FOOBAR" =
      Except.error "KeyError" :=
  ⟨rfl, rfl, rfl, rfl, rfl⟩

/-- C7: on `POST /run` the gateway maps an accepted reply carrying a
query_id to 202 with a Location header pointing at `/poll/<query_id>`, and
any error reply to 403. -/
theorem run_endpoint_mapping (qid m : String) (d : JVal) :
    run_query_handler
        (mkReply "accepted" m (JVal.jobj [("query_id", JVal.jstr qid)])) =
      Except.ok ⟨202, [("Location", url_for_poll qid)],
        RespBody.json (JVal.jobj [])⟩ ∧
    run_query_handler (mkReply "error" m d) =
      Except.ok ⟨403, [], RespBody.json (JVal.jobj
        [("status", JVal.jstr "Error"), ("msg", JVal.jstr m)])⟩ :=
  ⟨rfl, rfl⟩

/-- C8: a query-addressed action invoked with an id the server does not
know replies with status "error", data.query_state "awol" and msg
`Unknown query id: '<id>'`. -/
theorem unknown_id_awol_reply (known : List String) (qid : String)
    (onKnown : String → JVal) (h : qid ∉ known) :
    query_addressed_reply known qid onKnown = awol_reply qid ∧
    (awol_reply qid).getStr "status" = some "error" ∧
    ((awol_reply qid).getKey "data").bind (fun d => d.getStr "query_state") =
      some "awol" ∧
    (awol_reply qid).getStr "msg" =
      some ("Unknown query id: '" ++ qid ++ "'") :=
  ⟨by simp [query_addressed_reply, h], rfl, rfl, rfl⟩

theorem unknown_id_awol_reply_witness :
    query_addressed_reply [] "FOOBAR" (fun _ => JVal.jobj []) =
        awol_reply "FOOBAR" ∧
      (awol_reply "FOOBAR").getStr "status" = some "error" ∧
      ((awol_reply "FOOBAR").getKey "data").bind
          (fun d => d.getStr "query_state") = some "awol" ∧
      (awol_reply "FOOBAR").getStr "msg" =
        some ("Unknown query id: '" ++ "FOOBAR" ++ "'") :=
  unknown_id_awol_reply [] "FOOBAR" (fun _ => JVal.jobj []) (by simp)

/-- C9: the ParetoInteractions constructor accepts `proportion` exactly
when it lies strictly between 0 and 1 (keeping the argument as the
`proportion` attribute), and raises ValueError otherwise — in particular at
the boundary values 0 and 1. -/
theorem pareto_proportion_validation (p : ℚ) :
    (ParetoInteractions_init p = Except.ok p ↔ (0 < p ∧ p < 1)) ∧
    ((∃ e, ParetoInteractions_init p = Except.error e) ↔ ¬ (0 < p ∧ p < 1)) ∧
    (∃ e, ParetoInteractions_init 0 = Except.error e) ∧
    (∃ e, ParetoInteractions_init 1 = Except.error e) := by
  have hcond : (1 > p ∧ p > 0) ↔ (0 < p ∧ p < 1) :=
    ⟨fun h => ⟨h.2, h.1⟩, fun h => ⟨h.2, h.1⟩⟩
  refine ⟨?_, ?_, ?_, ?_⟩
  · by_cases h : 0 < p ∧ p < 1
    · simp [ParetoInteractions_init, hcond.mpr h, h]
    · have hn : ¬ (1 > p ∧ p > 0) := fun hc => h (hcond.mp hc)
      simp [ParetoInteractions_init, hn, h]
  · by_cases h : 0 < p ∧ p < 1
    · simp [ParetoInteractions_init, hcond.mpr h, h]
    · have hn : ¬ (1 > p ∧ p > 0) := fun hc => h (hcond.mp hc)
      simp [ParetoInteractions_init, hn, h]
  · refine ⟨toString (0 : ℚ) ++ " is not a valid proportion.", ?_⟩
    norm_num [ParetoInteractions_init]
  · refine ⟨toString (1 : ℚ) ++ " is not a valid proportion.", ?_⟩
    norm_num [ParetoInteractions_init]

/-- C10 (as stated, counterexample): when the left query's column names
contain a duplicated location column, Python's `list.remove` removes only
the first occurrence, so the result is not the left columns with all
location-column names removed followed by the location columns, and the
location column occurs twice rather than exactly once. -/
theorem join_column_names_duplicate_left :
    JoinToLocation_column_names ["location_id", "location_id"]
        ["location_id"] ≠
      (["location_id", "location_id"].filter
          (fun c => c ∉ ["location_id"])) ++ ["location_id"] ∧
    (JoinToLocation_column_names ["location_id", "location_id"]
        ["location_id"]).count "location_id" = 2 := by
  decide

/-- C10 (amended): when the left query's column names are duplicate-free,
`JoinToLocation.column_names` equals the left columns with the location
columns removed followed by the location columns; if additionally the
location columns are distinct, the result is duplicate-free and each
location column occurs exactly once (at the end). -/
theorem join_column_names_characterisation (L R : List String)
    (hL : L.Nodup) (hR : R.Nodup) :
    JoinToLocation_column_names L R = L.filter (fun x => x ∉ R) ++ R ∧
    (JoinToLocation_column_names L R).Nodup ∧
    ∀ c ∈ R, (JoinToLocation_column_names L R).count c = 1 := by
  have he : JoinToLocation_column_names L R =
      L.filter (fun x => x ∉ R) ++ R := by
    unfold JoinToLocation_column_names
    rw [removeFold_eq_filter R L hL]
  refine ⟨he, ?_, ?_⟩
  · rw [he]
    refine List.Nodup.append (hL.filter _) hR ?_
    intro a haL haR
    have hf := List.of_mem_filter haL
    simp only [decide_not, Bool.not_eq_true', decide_eq_false_iff_not] at hf
    exact hf haR
  · intro c hc
    rw [he, List.count_append]
    have h0 : (L.filter (fun x => x ∉ R)).count c = 0 := by
      rw [List.count_eq_zero]
      intro hmem
      have hf := List.of_mem_filter hmem
      simp only [decide_not, Bool.not_eq_true', decide_eq_false_iff_not] at hf
      exact hf hc
    have h1 : R.count c = 1 := List.count_eq_one_of_mem hR hc
    omega

theorem join_column_names_characterisation_witness :
    JoinToLocation_column_names ["subscriber", "location_id"] ["pcod"] =
      (["subscriber", "location_id"].filter (fun x => x ∉ ["pcod"])) ++
        ["pcod"] :=
  (join_column_names_characterisation ["subscriber", "location_id"] ["pcod"]
      (by decide) (by decide)).1

end FlowKit
